import Mathlib

/-!
# Verification of the financial-metrics aggregation engine

Shallow embedding of the metric formulas of this repository:

* `AutoJobs` embeds the collaborator-listing pipeline of
  `automation-jobs-update/index.js` (the `$addFields` stages computing
  `amountNum`, `rebateNum`, `income`, `expense`, `rebateReceivable`,
  `occupationDays`, `fundsOccupationCost`, `rebateForProfitCalc`,
  `grossProfit`, `grossProfitMargin`).
* `GetProjects` embeds the project-listing pipeline (`getprojects_2.js`,
  v4.6): `safeToDouble`, `safeToDoubleWithDefault`, the per-collaboration
  metric map and the v4.6 day-truncated end date.
* `Report` embeds the plain-JavaScript income computation of
  `handleProjectReport/index.js` (`getReportData` and `saveDailyStats`),
  where JavaScript numbers are modelled as `Option ℚ` with `none` = NaN.
* `DailyStat` material embeds the delete-then-insert daily-stat save
  (`saveDailyStats`: a `$pull` of the date followed by a `$push` with
  `$each`/`$sort`), and the `yesterdayStat` lookup used for `cpmChange`.
* `UpdateCollab` embeds the `$set`/`$unset` assembly of the
  `updateCollaborator` handler with its `ALLOWED_UPDATE_FIELDS` whitelist.

Numbers are rationals (`ℚ`); BSON/JSON scalars of the numeric fields are
the type `JSVal` below.  A MongoDB aggregation expression that can fail
(`$toDouble` of a non-numeric string aborts the aggregation) is embedded
as `Except Unit ℚ`.
-/

/-- A JSON/BSON scalar as stored in the numeric fields of the records:
absent/`null`, a string, or a number.  A missing field is modelled as
`null`, matching MongoDB aggregation comparisons, where a missing path
compares equal to `null`. -/
inductive JSVal where
  | null : JSVal
  | str : String → JSVal
  | num : ℚ → JSVal
deriving DecidableEq

/-- Numeric value of a decimal digit character. -/
def digitVal (c : Char) : ℕ := c.toNat - 48

/-- Value of a nonempty all-digit character list, `none` otherwise. -/
def digitsVal? (l : List Char) : Option ℕ :=
  if l ≠ [] ∧ l.all Char.isDigit then
    some (l.foldl (fun n c => n * 10 + digitVal c) 0)
  else none

/-- Value of an unsigned decimal numeral (`"12"`, `"12.5"`), `none` when
the characters do not form one. -/
def decimalVal? (l : List Char) : Option ℚ :=
  match l.splitOn '.' with
  | [i] => (digitsVal? i).map (fun n => (n : ℚ))
  | [i, f] =>
    match digitsVal? i, digitsVal? f with
    | some n, some m => some (((n * 10 ^ f.length + m : ℕ) : ℚ) / ((10 ^ f.length : ℕ) : ℚ))
    | _, _ => none
  | _ => none

/-- Numeric value of a decimal numeral string with an optional leading
minus sign.  This is the successful case of the string-to-number
conversions of the source (`$toDouble`, `parseFloat`) on this data set;
a non-numeric string yields `none` (where `$toDouble` raises an
aggregation error and `parseFloat` yields NaN). -/
def strToRat? (s : String) : Option ℚ :=
  match s.data with
  | [] => none
  | c :: rest =>
    if c = '-' then (decimalVal? rest).map (fun q => -q)
    else decimalVal? (c :: rest)

namespace AutoJobs

/-- The fields of one document of the collaborator-listing aggregation
after the `$lookup`/`$unwind` stages of `automation-jobs-update/index.js`:
the collaboration's own fields plus the joined project and capital-rate
fields.  Date-typed fields are carried post-`$toDate` as epoch
milliseconds, `none` standing for `null`/`""`. -/
structure Collab where
  amount : JSVal
  rebate : JSVal
  actualRebate : JSVal
  orderType : Option String
  orderDate : Option ℤ
  paymentDate : Option ℤ
  projectDiscount : JSVal
  projectStatus : Option String
  capitalRateValue : JSVal
deriving DecidableEq

/-- A collaboration with every field absent, used to build concrete
inputs by structure update. -/
def blank : Collab :=
  ⟨JSVal.null, JSVal.null, JSVal.null, none, none, none, JSVal.null, none, JSVal.null⟩

/-- `$cond: if $in [field, [null, ""]] then d else $toDouble field`
(the coercion pattern of the `amountNum`/`rebateNum`/`projectDiscountNum`
stage).  `$toDouble` of a non-numeric string aborts the aggregation,
embedded as `Except.error ()`. -/
def coerceOr (v : JSVal) (d : ℚ) : Except Unit ℚ :=
  match v with
  | .null => .ok d
  | .str s =>
    if s = "" then .ok d
    else
      match strToRat? s with
      | some q => .ok q
      | none => .error ()
  | .num q => .ok q

/-- `amountNum`: `amount` coerced, default 0. -/
def amountNum (c : Collab) : Except Unit ℚ := coerceOr c.amount 0

/-- `rebateNum`: `rebate` coerced, default 0. -/
def rebateNum (c : Collab) : Except Unit ℚ := coerceOr c.rebate 0

/-- `projectDiscountNum`: `projectInfo.discount` coerced, default 1. -/
def projectDiscountNum (c : Collab) : Except Unit ℚ := coerceOr c.projectDiscount 1

/-- `actualRebateNum`: `null` when `actualRebate` is `null`/`""`, else
`$toDouble actualRebate`. -/
def actualRebateNum (c : Collab) : Except Unit (Option ℚ) :=
  match c.actualRebate with
  | .null => .ok none
  | .str s =>
    if s = "" then .ok none
    else
      match strToRat? s with
      | some q => .ok (some q)
      | none => .error ()
  | .num q => .ok (some q)

/-- `monthlyRatePercent`: `rateValue := $ifNull [capitalRateInfo.value, 0.7]`,
then 0.7 when `rateValue` is `""`, else `$toDouble rateValue`. -/
def monthlyRatePercent (c : Collab) : Except Unit ℚ :=
  match c.capitalRateValue with
  | .null => .ok 0.7
  | .str s =>
    if s = "" then .ok 0.7
    else
      match strToRat? s with
      | some q => .ok q
      | none => .error ()
  | .num q => .ok q

/-- `income = $multiply [amountNum, projectDiscountNum, 1.05]`. -/
def income (c : Collab) : Except Unit ℚ :=
  match amountNum c, projectDiscountNum c with
  | .ok a, .ok d => .ok (a * d * 1.05)
  | _, _ => .error ()

/-- `expense`: `amountNum * 1.05` for `orderType = "original"`, else
`amountNum * 0.8 * 1.05` when `rebateNum > 20`, else
`amountNum * (1 - rebateNum / 100) * 1.05`. -/
def expense (c : Collab) : Except Unit ℚ :=
  match amountNum c, rebateNum c with
  | .ok a, .ok r =>
    .ok (if c.orderType = some "original" then a * 1.05
         else if 20 < r then a * 0.8 * 1.05
         else a * (1 - r / 100) * 1.05)
  | _, _ => .error ()

/-- `rebateReceivable`: `amountNum * (rebateNum / 100)` for
`orderType = "original"`, else `amountNum * (rebateNum / 100 - 0.20)` when
`rebateNum > 20`, else 0. -/
def rebateReceivable (c : Collab) : Except Unit ℚ :=
  match amountNum c, rebateNum c with
  | .ok a, .ok r =>
    .ok (if c.orderType = some "original" then a * (r / 100)
         else if 20 < r then a * (r / 100 - 0.20)
         else 0)
  | _, _ => .error ()

/-- `occupationDays` of the collaborator listing: 0 when `orderDateObj`
is null, else `max 0 ((paymentDateObj - orderDateObj) / 86400000)` where
`paymentDateObj` falls back to `$$NOW` — the full current timestamp
`now`, in epoch milliseconds. -/
def occupationDays (c : Collab) (now : ℤ) : ℚ :=
  match c.orderDate with
  | none => 0
  | some s => max 0 (((c.paymentDate.getD now - s : ℤ) : ℚ) / 86400000)

/-- `fundsOccupationCost = expense * (monthlyRatePercent / 100 / 30) * occupationDays`. -/
def fundsOccupationCost (c : Collab) (now : ℤ) : Except Unit ℚ :=
  match expense c, monthlyRatePercent c with
  | .ok e, .ok m => .ok (e * (m / 100 / 30) * occupationDays c now)
  | _, _ => .error ()

/-- `rebateForProfitCalc`: when `projectInfo.status = "已终结"`,
`$ifNull [actualRebateNum, 0]`; else `$ifNull [actualRebateNum, rebateReceivable]`. -/
def rebateForProfitCalc (c : Collab) : Except Unit ℚ :=
  match actualRebateNum c, rebateReceivable c with
  | .ok ar, .ok rr =>
    .ok (if c.projectStatus = some "已终结" then ar.getD 0 else ar.getD rr)
  | _, _ => .error ()

/-- `grossProfit = income + rebateForProfitCalc - expense`. -/
def grossProfit (c : Collab) : Except Unit ℚ :=
  match income c, rebateForProfitCalc c, expense c with
  | .ok i, .ok rf, .ok e => .ok (i + rf - e)
  | _, _, _ => .error ()

/-- `grossProfitMargin`: 0 when `income = 0`, else
`grossProfit / income * 100`. -/
def grossProfitMargin (c : Collab) : Except Unit ℚ :=
  match grossProfit c, income c with
  | .ok g, .ok i => .ok (if i = 0 then 0 else g / i * 100)
  | _, _ => .error ()

/-- The whole per-collaboration metric tuple of the pipeline: income,
expense, rebateReceivable, fundsOccupationCost, grossProfit,
grossProfitMargin. -/
def metrics (c : Collab) (now : ℤ) : Except Unit (ℚ × ℚ × ℚ × ℚ × ℚ × ℚ) :=
  match income c, expense c, rebateReceivable c, fundsOccupationCost c now,
      grossProfit c, grossProfitMargin c with
  | .ok i, .ok e, .ok rr, .ok f, .ok g, .ok m => .ok (i, e, rr, f, g, m)
  | _, _, _, _, _, _ => .error ()

/-- The numeric field is `null`, empty, or a parseable decimal numeral:
the domain on which the pipeline's `$toDouble` conversions succeed. -/
def numericOk (v : JSVal) : Bool :=
  match v with
  | .null => true
  | .str s => s == "" || (strToRat? s).isSome
  | .num _ => true

end AutoJobs

namespace GetProjects

/-- `safeToDouble` of `getprojects_2.js`: 0 when the field is `null` or
`""`, else `$toDouble field` (which errors on a non-numeric string). -/
def safeToDouble (v : JSVal) : Except Unit ℚ :=
  match v with
  | .null => .ok 0
  | .str s =>
    if s = "" then .ok 0
    else
      match strToRat? s with
      | some q => .ok q
      | none => .error ()
  | .num q => .ok q

/-- `safeToDoubleWithDefault`: like `safeToDouble` with a chosen default
for `null`/`""`. -/
def safeToDoubleWithDefault (v : JSVal) (d : ℚ) : Except Unit ℚ :=
  match v with
  | .null => .ok d
  | .str s =>
    if s = "" then .ok d
    else
      match strToRat? s with
      | some q => .ok q
      | none => .error ()
  | .num q => .ok q

/-- `monthlyRatePercent: $ifNull [safeToDouble capitalRateInfo.value, 0.7]`.
`safeToDouble` always produces a (non-null) double, so the `$ifNull` arm
is modelled by `Option.getD` on `some` of that double: the `0.7` default
is unreachable. -/
def monthlyRatePercent (v : JSVal) : Except Unit ℚ :=
  match safeToDouble v with
  | .ok q => .ok ((some q).getD 0.7)
  | .error e => .error e

/-- Per-collaboration `income` of the project listing:
`safeToDouble c.amount * safeToDoubleWithDefault discount 1 * 1.05`. -/
def income (amount discount : JSVal) : Except Unit ℚ :=
  match safeToDouble amount, safeToDoubleWithDefault discount 1 with
  | .ok a, .ok d => .ok (a * d * 1.05)
  | _, _ => .error ()

/-- Per-collaboration `expense` of the project listing (same conditional
tree as the collaborator listing, on `safeToDouble` coercions). -/
def expense (amount rebate : JSVal) (orderType : Option String) : Except Unit ℚ :=
  match safeToDouble amount, safeToDouble rebate with
  | .ok a, .ok r =>
    .ok (if orderType = some "original" then a * 1.05
         else if 20 < r then a * 0.8 * 1.05
         else a * (1 - r / 100) * 1.05)
  | _, _ => .error ()

/-- The `actualRebate` variable of the project listing's
`rebateForProfitCalc`: `null` only when the raw field is `null`
(`$ne [field, null]` guard), else `safeToDouble field` — an empty string
passes the guard and reads as 0. -/
def actualRebateOpt (v : JSVal) : Except Unit (Option ℚ) :=
  match v with
  | .null => .ok none
  | w =>
    match safeToDouble w with
    | .ok q => .ok (some q)
    | .error e => .error e

/-- `rebateForProfitCalc` of the project listing: when the project's
`status = "已终结"`, `$ifNull [actualRebate, 0]`; else
`$ifNull [actualRebate, inline estimate]` with the tiered estimate
formula inline. -/
def rebateForProfitCalc (amount rebate actualRebate : JSVal)
    (orderType projectStatus : Option String) : Except Unit ℚ :=
  match actualRebateOpt actualRebate, safeToDouble amount, safeToDouble rebate with
  | .ok ar, .ok a, .ok r =>
    .ok (if projectStatus = some "已终结" then ar.getD 0
         else ar.getD (if orderType = some "original" then a * (r / 100)
                       else if 20 < r then a * (r / 100 - 0.20)
                       else 0))
  | _, _, _ => .error ()

/-- The v4.6 fallback end date: `$dateFromParts` of the year, month and
day of the current instant (extracted on the UTC calendar, as `$year`
etc. of a date with no timezone option do), anchored at midnight in the
`Asia/Shanghai` timezone (UTC+8).  In epoch milliseconds:
the UTC calendar day of `now`, times a day, minus eight hours. -/
def todayAtDayPrecision (now : ℤ) : ℤ :=
  86400000 * Int.fdiv now 86400000 - 28800000

/-- `occupationDays` of the project listing (v4.6): end date is
`paymentDate` when present, else the day-precision current date;
`max 0 ((endDate - startDate) / 86400000)`, 0 when `orderDate` is
absent. -/
def occupationDays (orderDate paymentDate : Option ℤ) (now : ℤ) : ℚ :=
  match orderDate with
  | none => 0
  | some s =>
    max 0 (((paymentDate.getD (todayAtDayPrecision now) - s : ℤ) : ℚ) / 86400000)

/-- `fundsOccupationCost = expense * (monthlyRatePercent / 100 / 30) * occupationDays`
(second `$map` of the project listing). -/
def fundsOccupationCost (e m d : ℚ) : ℚ := e * (m / 100 / 30) * d

/-- Calendar day of an epoch-millisecond instant in the Asia/Shanghai
(UTC+8) timezone. -/
def shanghaiDay (t : ℤ) : ℤ := Int.fdiv (t + 28800000) 86400000

end GetProjects

namespace Report

/-!
Embedding of the plain-JavaScript arithmetic of
`handleProjectReport/index.js`.  A JavaScript number is an `Option ℚ`
with `none` standing for NaN; multiplication propagates NaN.
-/

/-- `parseFloat` on a stored field value: NaN (`none`) on `null`/missing
and on a non-numeric string, the numeric value otherwise. -/
def parseFloatVal (v : JSVal) : Option ℚ :=
  match v with
  | .null => none
  | .str s => strToRat? s
  | .num q => some q

/-- `x || d` on a JavaScript number: both NaN and 0 are falsy. -/
def orDefault (x : Option ℚ) (d : ℚ) : ℚ :=
  match x with
  | some q => if q = 0 then d else q
  | none => d

/-- NaN-propagating multiplication of JavaScript numbers. -/
def jsMul (a b : Option ℚ) : Option ℚ :=
  match a, b with
  | some x, some y => some (x * y)
  | _, _ => none

/-- `getReportData`: `projectDiscount = parseFloat(project.discount) || 1`. -/
def reportDiscount (discount : JSVal) : ℚ := orDefault (parseFloatVal discount) 1

/-- `getReportData` overview: a collaboration's contribution
`(parseFloat(c.amount) || 0) * projectDiscount * 1.05` — always a real
number. -/
def reportIncome (discount : ℚ) (amount : JSVal) : ℚ :=
  orDefault (parseFloatVal amount) 0 * discount * 1.05

/-- `saveDailyStats`:
`projectDiscount = project ? parseFloat(project.discount) : 1` — the
found-project branch has no `|| 1` fallback, so a `null`/empty/unparseable
discount stays NaN. -/
def saveDiscount (projectDiscount : Option JSVal) : Option ℚ :=
  match projectDiscount with
  | none => some 1
  | some d => parseFloatVal d

/-- `saveDailyStats`:
`income = (parseFloat(collaboration.amount) || 0) * projectDiscount * 1.05`
as a JavaScript number (`none` = NaN). -/
def saveIncome (projectDiscount : Option JSVal) (amount : JSVal) : Option ℚ :=
  jsMul (jsMul (some (orDefault (parseFloatVal amount) 0)) (saveDiscount projectDiscount))
    (some 1.05)

end Report

/-- One entry of a works record's `dailyStats` array.  The `date` is the
calendar day as an integer day number: the stored `"YYYY-MM-DD"` strings
compare lexicographically exactly as their day numbers do, and the
`yesterdayStr` computed by `createUTCDate`/`setUTCDate(-1)`/`formatDate`
is `date - 1`. -/
structure DailyStat where
  date : ℤ
  totalViews : ℚ
  cpm : ℚ
  cpmChange : Option ℚ
  solution : String
deriving DecidableEq

/-- The order on daily stats used by the `$push`'s `$sort: { date: 1 }`. -/
def statLE (a b : DailyStat) : Prop := a.date ≤ b.date

instance : DecidableRel statLE := fun a b => inferInstanceAs (Decidable (a.date ≤ b.date))

instance : IsTotal DailyStat statLE := ⟨fun a b => le_total a.date b.date⟩

instance : IsTrans DailyStat statLE := ⟨fun _ _ _ h1 h2 => le_trans h1 h2⟩

/-- `saveDailyStats` write for one collaboration and one date: the
`$pull { dailyStats: { date: dateStr } }` removes every entry of that
date, then the `$push { $each: [newStat], $sort: { date: 1 } }` appends
the new entry and sorts the whole array by date ascending. -/
def saveStat (stats : List DailyStat) (s : DailyStat) : List DailyStat :=
  List.insertionSort statLE ((stats.filter (fun t => t.date ≠ s.date)) ++ [s])

/-- `saveDailyStats` cpm change for the entry being saved:
`yesterdayStat = work.dailyStats.find(s => s.date === yesterdayStr)` with
`yesterdayStr` the calendar day immediately before `d`, then
`cpmChange = yesterdayStat ? cpm - yesterdayStat.cpm : null`.  (The
`getReportData` report path computes the same expression.) -/
def saveCpmChange (stats : List DailyStat) (d : ℤ) (cpm : ℚ) : Option ℚ :=
  match stats.find? (fun t => t.date = d - 1) with
  | some y => some (cpm - y.cpm)
  | none => none

/-- The `dailyStats` arrays the system actually produces: a works record
is created with `dailyStats: []` (the creation sites of the
`updateCollaborator` v3.0 handler and the upsert branch) and thereafter
written only through the delete-then-insert `saveStat`. -/
inductive ReachableStats : List DailyStat → Prop where
  | empty : ReachableStats []
  | save {l : List DailyStat} (s : DailyStat) :
      ReachableStats l → ReachableStats (saveStat l s)

namespace UpdateCollab

/-- A JSON value of an update-request body, plus the BSON date the
handler writes into timestamps.  Arrays carry their element count: the
handler only ever tests `Array.isArray(v) && v.length === 0` and
otherwise stores the value opaquely. -/
inductive BVal where
  | null : BVal
  | str : String → BVal
  | num : ℚ → BVal
  | arr : ℕ → BVal
  | date : ℤ → BVal
deriving DecidableEq

/-- The update-request body after the `id` key is split off, and also a
stored collaboration record: keys with values. -/
def KVList := List (String × BVal)

instance : DecidableEq KVList := inferInstanceAs (DecidableEq (List (String × BVal)))

/-- `Object.prototype.hasOwnProperty` / property read: the value of the
first binding of a key. -/
def lookup (l : KVList) (k : String) : Option BVal :=
  (l.find? (fun p => p.1 = k)).map Prod.snd

/-- `ALLOWED_UPDATE_FIELDS` of the `updateCollaborator` handler. -/
def ALLOWED_UPDATE_FIELDS : List String :=
  ["amount", "priceInfo", "rebate", "orderType", "status",
   "orderDate", "publishDate", "videoId", "paymentDate",
   "actualRebate", "recoveryDate", "contentFile", "taskId",
   "rebateScreenshots", "discrepancyReason", "discrepancyReasonUpdatedAt",
   "plannedReleaseDate"]

/-- `REBATE_RELATED_FIELDS` of the handler. -/
def REBATE_RELATED_FIELDS : List String :=
  ["actualRebate", "recoveryDate", "rebateScreenshots", "discrepancyReason"]

/-- `v === null || v === "" || (Array.isArray(v) && v.length === 0)` —
the values routed to `$unset`. -/
def isEmptyVal (v : BVal) : Bool :=
  match v with
  | .null => true
  | .str s => s == ""
  | .arr n => n == 0
  | _ => false

/-- JavaScript truthiness of a present value. -/
def truthy (v : BVal) : Bool :=
  match v with
  | .null => false
  | .str s => s != ""
  | .num q => q != 0
  | .arr _ => true
  | .date _ => true

/-- JavaScript truthiness of a possibly-absent value (`undefined` is
falsy). -/
def truthyOpt (v : Option BVal) : Bool :=
  match v with
  | none => false
  | some w => truthy w

/-- The `updatePayload` object: the keys and values of `$set` and the
keys of `$unset`. -/
structure Payload where
  sets : List (String × BVal)
  unsets : List String
deriving DecidableEq

/-- JavaScript object property assignment `o[k] = v`: replace the
binding of `k` if present, else add it. -/
def setKey (l : List (String × BVal)) (k : String) (v : BVal) :
    List (String × BVal) :=
  (l.filter (fun p => p.1 ≠ k)) ++ [(k, v)]

/-- Add a key to `$unset` (assigning an already-present key changes
nothing observable). -/
def unsetKey (l : List String) (k : String) : List String :=
  if k ∈ l then l else l ++ [k]

/-- One iteration of the whitelist loop of the handler: a body field
present at key `f` goes to `$unset` when empty, else to `$set`. -/
def loopStep (body : KVList) (p : Payload) (f : String) : Payload :=
  match lookup body f with
  | none => p
  | some v =>
    if isEmptyVal v then { p with unsets := unsetKey p.unsets f }
    else { p with sets := setKey p.sets f v }

/-- The whitelist loop of the handler over `ALLOWED_UPDATE_FIELDS`. -/
def fieldLoop (body : KVList) : Payload :=
  ALLOWED_UPDATE_FIELDS.foldl (loopStep body) ⟨[], []⟩

/-- `hasValidFields`: some whitelisted field occurs in the body. -/
def hasValidFields (body : KVList) : Bool :=
  ALLOWED_UPDATE_FIELDS.any (fun f => (lookup body f).isSome)

/-- `hasRebateRelatedUpdate`: some rebate-related field occurs in the
body. -/
def hasRebateRelatedUpdate (body : KVList) : Bool :=
  REBATE_RELATED_FIELDS.any (fun f => (lookup body f).isSome)

/-- The v1.6 rebate-timestamp rule: when a rebate-related field occurs,
either clear `discrepancyReasonUpdatedAt` (body sends
`actualRebate: null`) or stamp it with `new Date()`. -/
def rebateStep (body : KVList) (now : ℤ) (p : Payload) : Payload :=
  if hasRebateRelatedUpdate body then
    if lookup body "actualRebate" = some BVal.null then
      { p with unsets := unsetKey p.unsets "discrepancyReasonUpdatedAt" }
    else
      { p with sets := setKey p.sets "discrepancyReasonUpdatedAt" (BVal.date now) }
  else p

/-- The auto-publish rule: a truthy `publishDate` with a body status
other than `"视频已发布"` forces `$set.status = "视频已发布"` unless the
loop already set a truthy status. -/
def publishStep (body : KVList) (p : Payload) : Payload :=
  if truthyOpt (lookup body "publishDate")
      ∧ ¬ lookup body "status" = some (BVal.str "视频已发布") then
    if truthyOpt (lookup p.sets "status") then p
    else { p with sets := setKey p.sets "status" (BVal.str "视频已发布") }
  else p

/-- The `updatedAt` stamp: added whenever `$set` is nonempty. -/
def timestampStep (now : ℤ) (p : Payload) : Payload :=
  if p.sets = [] then p
  else { p with sets := setKey p.sets "updatedAt" (BVal.date now) }

/-- The assembled update of the handler (`none` when the request is
rejected with 400 for having no valid fields): the whitelist loop, then
the rebate-timestamp rule, then the auto-publish status rule, then the
`updatedAt` timestamp.  `now` is the value of `new Date()`. -/
def buildUpdate (body : KVList) (now : ℤ) : Option Payload :=
  if hasValidFields body then
    some (timestampStep now (publishStep body (rebateStep body now (fieldLoop body))))
  else none

/-- `updateOne` with the assembled `$set`/`$unset`: MongoDB rejects an
update whose `$set` and `$unset` target the same path ("would create a
conflict"), leaving the document unchanged (`none`); otherwise the `$set`
keys are written and the `$unset` keys removed. -/
def applyUpdate (r : KVList) (p : Payload) : Option KVList :=
  if p.sets.any (fun kv => kv.1 ∈ p.unsets) then none
  else some ((p.sets.foldl (fun acc kv => setKey acc kv.1 kv.2) r).filter
    (fun kv => kv.1 ∉ p.unsets))

/-- The record state after one `updateCollaborator` request: unchanged
when the request is rejected (no valid fields) or the store rejects a
conflicting update, else the updated record. -/
def handlerUpdate (body : KVList) (r : KVList) (now : ℤ) : KVList :=
  match buildUpdate body now with
  | none => r
  | some p =>
    match applyUpdate r p with
    | none => r
    | some r2 => r2

end UpdateCollab

/-!
## Spec-side formulas

Transcriptions of the claimed formulas, worded from the specification,
to be compared with the embedded pipeline definitions.
-/

/-- The claimed expense formula: `amount*1.05` for original orders, else
`amount*0.8*1.05` above the 20 tier, else `amount*(1 - rebatePct/100)*1.05`. -/
def claimedExpense (orderType : Option String) (a r : ℚ) : ℚ :=
  if orderType = some "original" then a * 1.05
  else if 20 < r then a * 0.8 * 1.05
  else a * (1 - r / 100) * 1.05

/-- The claimed rebate-receivable formula: `amount*rebatePct/100` for
original orders, else `amount*(rebatePct/100 - 0.20)` above the 20 tier,
else 0. -/
def claimedRebateReceivable (orderType : Option String) (a r : ℚ) : ℚ :=
  if orderType = some "original" then a * r / 100
  else if 20 < r then a * (r / 100 - 0.20)
  else 0

/-!
## Concrete inputs
-/

/-- An original-order collaboration: amount `"100"`, rebate 25. -/
def cOriginal : AutoJobs.Collab :=
  ⟨JSVal.str "100", JSVal.num 25, JSVal.null, some "original", none, none,
   JSVal.null, none, JSVal.null⟩

/-- An unpaid collaboration: `orderDate` at the epoch, no `paymentDate`. -/
def cOpen : AutoJobs.Collab :=
  ⟨JSVal.null, JSVal.null, JSVal.null, none, some 0, none,
   JSVal.null, none, JSVal.null⟩

/-- A non-finalized original-order collaboration whose `actualRebate` is
the empty string. -/
def cEmptyAR : AutoJobs.Collab :=
  ⟨JSVal.num 100, JSVal.num 25, JSVal.str "", some "original", none, none,
   JSVal.null, some "进行中", JSVal.null⟩

/-- A collaboration with a negative amount (numeric string `"-100"`),
rebate 10, non-original order. -/
def cNeg : AutoJobs.Collab :=
  ⟨JSVal.str "-100", JSVal.num 10, JSVal.null, some "other", none, none,
   JSVal.null, none, JSVal.null⟩

/-- A collaboration whose `amount` is the unparseable string `"abc"`. -/
def cBadAmount : AutoJobs.Collab :=
  ⟨JSVal.str "abc", JSVal.null, JSVal.null, none, none, none,
   JSVal.null, none, JSVal.null⟩

/-- A collaboration with every numeric field in the well-formed domain. -/
def cGood : AutoJobs.Collab :=
  ⟨JSVal.str "100", JSVal.str "25", JSVal.str "", some "other", some 0,
   some 86400000, JSVal.str "1", some "进行中", JSVal.str "0.7"⟩

/-- The first stat-series save, used to build a reachable series. -/
def stat1 : DailyStat := ⟨1, 100, 5, none, ""⟩

/-- A re-save of date 1 with new values. -/
def stat1b : DailyStat := ⟨1, 200, 7, none, ""⟩

/-- A stat recorded two days before the date being saved. -/
def stat0 : DailyStat := ⟨0, 100, 5, none, ""⟩

/-- A body sending an empty `status` together with a publish date. -/
def bodyConflict : UpdateCollab.KVList :=
  [("status", UpdateCollab.BVal.str ""), ("publishDate", UpdateCollab.BVal.str "2024-06-01")]

/-- A stored record whose `status` is set. -/
def recStatus : UpdateCollab.KVList :=
  [("status", UpdateCollab.BVal.str "客户已定档")]

/-- A body updating `amount` and clearing `actualRebate`. -/
def bodyClean : UpdateCollab.KVList :=
  [("amount", UpdateCollab.BVal.str "200"), ("actualRebate", UpdateCollab.BVal.null)]

/-- A stored record with an `actualRebate` and an extra field. -/
def recBefore : UpdateCollab.KVList :=
  [("actualRebate", UpdateCollab.BVal.num 50), ("foo", UpdateCollab.BVal.str "x")]

/-!
## Claims
-/

/-- Claim C1: for every collaboration, with `amount` and `rebate` coerced
from possibly-missing/string fields (default 0), the collaborator-listing
pipeline computes exactly the claimed `(expense, rebateReceivable)` pair:
`(amount*1.05, amount*rebatePct/100)` for original orders, else
`(amount*0.8*1.05, amount*(rebatePct/100 - 0.20))` above the 20 tier,
else `(amount*(1 - rebatePct/100)*1.05, 0)`. -/
theorem expense_rebateReceivable_formula (c : AutoJobs.Collab) (a r : ℚ)
    (ha : AutoJobs.amountNum c = Except.ok a)
    (hr : AutoJobs.rebateNum c = Except.ok r) :
    AutoJobs.expense c = Except.ok (claimedExpense c.orderType a r) ∧
    AutoJobs.rebateReceivable c = Except.ok (claimedRebateReceivable c.orderType a r) := by
  constructor
  · simp only [AutoJobs.expense, ha, hr, claimedExpense]
  · simp only [AutoJobs.rebateReceivable, ha, hr, claimedRebateReceivable,
      Except.ok.injEq]
    split_ifs <;> ring

/-- Witness for C1 at `cOriginal` (amount `"100"`, rebate 25, original). -/
theorem expense_rebateReceivable_formula_witness :
    AutoJobs.amountNum cOriginal = Except.ok 100 ∧
    AutoJobs.rebateNum cOriginal = Except.ok 25 ∧
    AutoJobs.expense cOriginal = Except.ok (claimedExpense cOriginal.orderType 100 25) ∧
    AutoJobs.rebateReceivable cOriginal
      = Except.ok (claimedRebateReceivable cOriginal.orderType 100 25) := by
  have h := expense_rebateReceivable_formula cOriginal 100 25 rfl rfl
  exact ⟨rfl, rfl, h.1, h.2⟩

/-- Claim C2: the project listing does use a day-precision end date, but
the collaborator listing falls back to `$$NOW`, the full current
timestamp.  At two instants of the same Asia/Shanghai calendar day
(1970-01-02 at 08:00 and at 20:00 local time), a collaboration with
`orderDate` at the epoch and no `paymentDate` gets `occupationDays` 1
and 1.5 from the collaborator listing, while the project listing returns
the same value at both instants. -/
theorem occupationDays_unstable_within_day :
    GetProjects.shanghaiDay 86400000 = GetProjects.shanghaiDay 129600000 ∧
    AutoJobs.occupationDays cOpen 86400000 ≠ AutoJobs.occupationDays cOpen 129600000 ∧
    GetProjects.occupationDays (some 0) none 86400000
      = GetProjects.occupationDays (some 0) none 129600000 := by
  have h1 : Int.fdiv 86400000 86400000 = 1 := rfl
  have h2 : Int.fdiv 129600000 86400000 = 1 := rfl
  refine ⟨by decide, ?_, ?_⟩
  · norm_num [AutoJobs.occupationDays, cOpen]
  · norm_num [GetProjects.occupationDays, GetProjects.todayAtDayPrecision, h1, h2]

/-- Claim C4: in `saveDailyStats` the project discount is
`parseFloat(project.discount)` with no `|| 1` fallback, so a found
project with a missing discount makes the income NaN (`none`), while the
`getReportData` computation on the same data defaults the discount to 1
and yields the real income 105. -/
theorem saveIncome_nan_on_missing_discount :
    Report.saveIncome (some JSVal.null) (JSVal.str "100") = none ∧
    Report.reportIncome (Report.reportDiscount JSVal.null) (JSVal.str "100") = 105 := by
  constructor
  · rfl
  · have h1 : Report.orDefault (Report.parseFloatVal (JSVal.str "100")) 0 = 100 := rfl
    have h2 : Report.reportDiscount JSVal.null = 1 := rfl
    rw [Report.reportIncome, h1, h2]
    norm_num

/-- Claim C7: the collaborator listing defaults the monthly capital rate
to 0.7 when the joined value is absent, but in the project listing the
`$ifNull [safeToDouble value, 0.7]` default is unreachable —
`safeToDouble` maps an absent or empty value to 0 — so the project
listing uses 0, not 0.7. -/
theorem monthlyRatePercent_default_mismatch :
    GetProjects.monthlyRatePercent JSVal.null = Except.ok 0 ∧
    GetProjects.monthlyRatePercent (JSVal.str "") = Except.ok 0 ∧
    AutoJobs.monthlyRatePercent AutoJobs.blank = Except.ok 0.7 ∧
    (0 : ℚ) ≠ 0.7 := by
  refine ⟨rfl, rfl, rfl, by norm_num⟩

/-- Claim C3 counterexample: on a non-finalized original order with
amount 100, rebate 25 and `actualRebate = ""` — a non-null value — the
two cited sites disagree: the collaborator listing treats the empty
string as absent and falls back to the estimate 25, while the project
listing treats it as present (it only tests non-null) and returns its
coerced value 0.  No single "actualRebate when non-null" rule holds for
every collaboration at both sites. -/
theorem rebateForProfitCalc_sites_disagree :
    AutoJobs.rebateForProfitCalc cEmptyAR = Except.ok 25 ∧
    GetProjects.rebateForProfitCalc (JSVal.num 100) (JSVal.num 25) (JSVal.str "")
      (some "original") (some "进行中") = Except.ok 0 := by
  constructor
  · have h : AutoJobs.rebateForProfitCalc cEmptyAR = Except.ok (100 * (25 / 100)) := rfl
    rw [h]
    norm_num
  · rfl

/-- Claim C3 as amended: at each site, `rebateForProfitCalc` is the
coerced `actualRebate` when present, else 0 when the project is
finalized, else the tier estimate — where "present" means non-null and
non-empty at the collaborator listing, and merely non-null at the
project listing (an empty string there counts as present with value 0). -/
theorem rebateForProfitCalc_amended :
    (∀ (c : AutoJobs.Collab) (ar : Option ℚ) (rr : ℚ),
      AutoJobs.actualRebateNum c = Except.ok ar →
      AutoJobs.rebateReceivable c = Except.ok rr →
      AutoJobs.rebateForProfitCalc c =
        Except.ok (if c.projectStatus = some "已终结" then ar.getD 0 else ar.getD rr)) ∧
    (∀ (amount rebate actualRebate : JSVal) (orderType projectStatus : Option String)
      (ar : Option ℚ) (a r : ℚ),
      GetProjects.actualRebateOpt actualRebate = Except.ok ar →
      GetProjects.safeToDouble amount = Except.ok a →
      GetProjects.safeToDouble rebate = Except.ok r →
      GetProjects.rebateForProfitCalc amount rebate actualRebate orderType projectStatus =
        Except.ok (if projectStatus = some "已终结" then ar.getD 0
                   else ar.getD (claimedRebateReceivable orderType a r))) := by
  constructor
  · intro c ar rr har hrr
    simp only [AutoJobs.rebateForProfitCalc, har, hrr]
  · intro amount rebate actualRebate orderType projectStatus ar a r har ha hr
    have hest : (if orderType = some "original" then a * (r / 100)
        else if 20 < r then a * (r / 100 - 0.20) else 0)
        = claimedRebateReceivable orderType a r := by
      unfold claimedRebateReceivable
      split_ifs <;> ring
    simp only [GetProjects.rebateForProfitCalc, har, ha, hr, hest]

/-- Witness for the amended C3 at the two concrete inputs of the
counterexample. -/
theorem rebateForProfitCalc_amended_witness :
    AutoJobs.rebateForProfitCalc cEmptyAR =
      Except.ok (if cEmptyAR.projectStatus = some "已终结"
                 then (none : Option ℚ).getD 0
                 else (none : Option ℚ).getD (100 * (25 / 100))) ∧
    GetProjects.rebateForProfitCalc (JSVal.num 100) (JSVal.num 25) (JSVal.str "")
        (some "original") (some "进行中") =
      Except.ok (if (some "进行中" : Option String) = some "已终结"
                 then (some (0 : ℚ)).getD 0
                 else (some (0 : ℚ)).getD (claimedRebateReceivable (some "original") 100 25)) :=
  ⟨rebateForProfitCalc_amended.1 cEmptyAR none (100 * (25 / 100)) rfl rfl,
   rebateForProfitCalc_amended.2 (JSVal.num 100) (JSVal.num 25) (JSVal.str "")
     (some "original") (some "进行中") (some 0) 100 25 rfl rfl rfl⟩

/-- Claim C5 counterexample: with `amount = "abc"` — an unparseable
non-empty string — the pipeline's `$toDouble` raises, aborting the
aggregation instead of coercing to 0: the metrics computation yields an
error, not a result. -/
theorem metrics_error_on_unparseable :
    AutoJobs.metrics cBadAmount 0 = Except.error () := rfl

/-- A numeric field in the well-formed domain coerces successfully. -/
theorem coerceOr_ok (v : JSVal) (d : ℚ) (h : AutoJobs.numericOk v = true) :
    ∃ q, AutoJobs.coerceOr v d = Except.ok q := by
  cases v with
  | null => exact ⟨d, rfl⟩
  | num q => exact ⟨q, rfl⟩
  | str s =>
    by_cases hs : s = ""
    · exact ⟨d, by simp [AutoJobs.coerceOr, hs]⟩
    · have hv : (strToRat? s).isSome = true := by
        simpa [AutoJobs.numericOk, hs] using h
      obtain ⟨q, hq⟩ := Option.isSome_iff_exists.mp hv
      exact ⟨q, by simp [AutoJobs.coerceOr, hs, hq]⟩

/-- The `actualRebate` coercion succeeds on the well-formed domain. -/
theorem actualRebateNum_ok (c : AutoJobs.Collab)
    (h : AutoJobs.numericOk c.actualRebate = true) :
    ∃ ar, AutoJobs.actualRebateNum c = Except.ok ar := by
  unfold AutoJobs.actualRebateNum
  cases hv : c.actualRebate with
  | null => exact ⟨none, rfl⟩
  | num q => exact ⟨some q, rfl⟩
  | str s =>
    rw [hv] at h
    by_cases hs : s = ""
    · exact ⟨none, by simp [hs]⟩
    · have hp : (strToRat? s).isSome = true := by
        simpa [AutoJobs.numericOk, hs] using h
      obtain ⟨q, hq⟩ := Option.isSome_iff_exists.mp hp
      exact ⟨some q, by simp [hs, hq]⟩

/-- The capital-rate coercion succeeds on the well-formed domain. -/
theorem monthlyRatePercent_ok (c : AutoJobs.Collab)
    (h : AutoJobs.numericOk c.capitalRateValue = true) :
    ∃ m, AutoJobs.monthlyRatePercent c = Except.ok m := by
  unfold AutoJobs.monthlyRatePercent
  cases hv : c.capitalRateValue with
  | null => exact ⟨0.7, rfl⟩
  | num q => exact ⟨q, rfl⟩
  | str s =>
    rw [hv] at h
    by_cases hs : s = ""
    · exact ⟨0.7, by simp [hs]⟩
    · have hp : (strToRat? s).isSome = true := by
        simpa [AutoJobs.numericOk, hs] using h
      obtain ⟨q, hq⟩ := Option.isSome_iff_exists.mp hp
      exact ⟨q, by simp [hs, hq]⟩

/-- Claim C5 as amended: the metrics computation is total over records
whose numeric fields are null/missing, empty, or parseable decimal
numerals (the coercions then apply their documented defaults); an
unparseable non-empty string instead makes `$toDouble` raise and the
computation error out. -/
theorem metrics_total_on_wellformed (c : AutoJobs.Collab) (now : ℤ)
    (h1 : AutoJobs.numericOk c.amount = true)
    (h2 : AutoJobs.numericOk c.rebate = true)
    (h3 : AutoJobs.numericOk c.projectDiscount = true)
    (h4 : AutoJobs.numericOk c.actualRebate = true)
    (h5 : AutoJobs.numericOk c.capitalRateValue = true) :
    ∃ m, AutoJobs.metrics c now = Except.ok m := by
  obtain ⟨a, ha⟩ := coerceOr_ok c.amount 0 h1
  obtain ⟨r, hr⟩ := coerceOr_ok c.rebate 0 h2
  obtain ⟨d, hd⟩ := coerceOr_ok c.projectDiscount 1 h3
  obtain ⟨ar, har⟩ := actualRebateNum_ok c h4
  obtain ⟨m, hm⟩ := monthlyRatePercent_ok c h5
  have hi : AutoJobs.income c = Except.ok (a * d * 1.05) := by
    simp [AutoJobs.income, AutoJobs.amountNum, AutoJobs.projectDiscountNum, ha, hd]
  have he : AutoJobs.expense c = Except.ok
      (if c.orderType = some "original" then a * 1.05
       else if 20 < r then a * 0.8 * 1.05
       else a * (1 - r / 100) * 1.05) := by
    simp [AutoJobs.expense, AutoJobs.amountNum, AutoJobs.rebateNum, ha, hr]
  have hrr : AutoJobs.rebateReceivable c = Except.ok
      (if c.orderType = some "original" then a * (r / 100)
       else if 20 < r then a * (r / 100 - 0.20)
       else 0) := by
    simp [AutoJobs.rebateReceivable, AutoJobs.amountNum, AutoJobs.rebateNum, ha, hr]
  have hf : ∃ f, AutoJobs.fundsOccupationCost c now = Except.ok f := by
    simp [AutoJobs.fundsOccupationCost, he, hm]
  have hrf : ∃ g, AutoJobs.rebateForProfitCalc c = Except.ok g := by
    simp [AutoJobs.rebateForProfitCalc, har, hrr]
  obtain ⟨f, hf⟩ := hf
  obtain ⟨g, hg⟩ := hrf
  have hgpE : ∃ gp, AutoJobs.grossProfit c = Except.ok gp := by
    simp [AutoJobs.grossProfit, hi, hg, he]
  obtain ⟨gp, hgp⟩ := hgpE
  have hmgE : ∃ mg, AutoJobs.grossProfitMargin c = Except.ok mg := by
    simp [AutoJobs.grossProfitMargin, hgp, hi]
  obtain ⟨mg, hmg⟩ := hmgE
  cases hmet : AutoJobs.metrics c now with
  | ok m => exact ⟨m, rfl⟩
  | error e =>
    simp only [AutoJobs.metrics, hi, he, hrr, hf, hgp, hmg] at hmet
    exact (Except.noConfusion hmet)

/-- Witness for the amended C5 at `cGood`, whose fields are a numeric
string, a numeric string, an empty string, a numeric string and a
numeric string. -/
theorem metrics_total_on_wellformed_witness :
    AutoJobs.numericOk cGood.amount = true ∧
    AutoJobs.numericOk cGood.rebate = true ∧
    AutoJobs.numericOk cGood.projectDiscount = true ∧
    AutoJobs.numericOk cGood.actualRebate = true ∧
    AutoJobs.numericOk cGood.capitalRateValue = true ∧
    ∃ m, AutoJobs.metrics cGood 0 = Except.ok m :=
  ⟨rfl, rfl, rfl, rfl, rfl, metrics_total_on_wellformed cGood 0 rfl rfl rfl rfl rfl⟩

/-- Claim C6 counterexample: with amount `"-100"`, rebate 10, non-original
order, the income is -105 (not greater than 0), yet the margin guard only
tests `income == 0`, so the pipeline computes `grossProfit/income*100 = 10`
rather than the claimed 0. -/
theorem margin_nonzero_on_negative_income :
    AutoJobs.income cNeg = Except.ok (-105) ∧
    ¬ (0 : ℚ) < -105 ∧
    AutoJobs.grossProfitMargin cNeg = Except.ok 10 ∧
    AutoJobs.grossProfitMargin cNeg ≠ Except.ok 0 := by
  have hi0 : AutoJobs.income cNeg = Except.ok (-100 * 1 * 1.05) := rfl
  have hi : AutoJobs.income cNeg = Except.ok (-105) := by rw [hi0]; norm_num
  have hg : AutoJobs.grossProfit cNeg =
      Except.ok (-100 * 1 * 1.05 + 0 - -100 * (1 - 10 / 100) * 1.05) := rfl
  have hm0 : AutoJobs.grossProfitMargin cNeg =
      Except.ok (if (-100 * 1 * 1.05 : ℚ) = 0 then 0
        else (-100 * 1 * 1.05 + 0 - -100 * (1 - 10 / 100) * 1.05)
          / (-100 * 1 * 1.05) * 100) := rfl
  have hcond : ¬ ((-100 : ℚ) * 1 * 1.05 = 0) := by norm_num
  have hm : AutoJobs.grossProfitMargin cNeg = Except.ok 10 := by
    rw [hm0, if_neg hcond]
    norm_num
  exact ⟨hi, by norm_num, hm, by rw [hm]; intro hx; injection hx with hx; norm_num at hx⟩

/-- Claim C6 as amended: `grossProfit = income + rebateForProfitCalc -
expense` always, and `grossProfitMargin` is `grossProfit/income*100`
whenever `income ≠ 0` (not only when positive), 0 when `income = 0`;
being rational arithmetic guarded at zero, it is always a finite real
number. -/
theorem grossProfit_margin_guard (c : AutoJobs.Collab) (i rf e : ℚ)
    (hi : AutoJobs.income c = Except.ok i)
    (hrf : AutoJobs.rebateForProfitCalc c = Except.ok rf)
    (he : AutoJobs.expense c = Except.ok e) :
    AutoJobs.grossProfit c = Except.ok (i + rf - e) ∧
    AutoJobs.grossProfitMargin c =
      Except.ok (if i = 0 then 0 else (i + rf - e) / i * 100) := by
  have hg : AutoJobs.grossProfit c = Except.ok (i + rf - e) := by
    simp [AutoJobs.grossProfit, hi, hrf, he]
  exact ⟨hg, by simp [AutoJobs.grossProfitMargin, hg, hi]⟩

/-- Witness for the amended C6 at `cOriginal`. -/
theorem grossProfit_margin_guard_witness :
    AutoJobs.grossProfit cOriginal
      = Except.ok (100 * 1 * 1.05 + (none : Option ℚ).getD (100 * (25 / 100))
          - 100 * 1.05) ∧
    AutoJobs.grossProfitMargin cOriginal =
      Except.ok (if (100 * 1 * 1.05 : ℚ) = 0 then 0
        else (100 * 1 * 1.05 + (none : Option ℚ).getD (100 * (25 / 100))
          - 100 * 1.05) / (100 * 1 * 1.05) * 100) :=
  grossProfit_margin_guard cOriginal (100 * 1 * 1.05)
    ((none : Option ℚ).getD (100 * (25 / 100))) (100 * 1.05) rfl rfl rfl

/-- The saved series is a permutation of: the old entries of other dates,
then the new entry. -/
theorem saveStat_perm (l : List DailyStat) (s : DailyStat) :
    List.Perm (saveStat l s) ((l.filter (fun t => t.date ≠ s.date)) ++ [s]) :=
  List.perm_insertionSort statLE _

/-- Membership in a saved series. -/
theorem mem_saveStat (l : List DailyStat) (s t : DailyStat) :
    t ∈ saveStat l s ↔ (t ∈ l ∧ t.date ≠ s.date) ∨ t = s := by
  rw [(saveStat_perm l s).mem_iff]
  simp [List.mem_filter]

/-- A save preserves distinctness of the dates. -/
theorem saveStat_dates_nodup {l : List DailyStat} (s : DailyStat)
    (h : (l.map DailyStat.date).Nodup) :
    ((saveStat l s).map DailyStat.date).Nodup := by
  have hp := ((saveStat_perm l s).map DailyStat.date).nodup_iff
  apply hp.mpr
  rw [List.map_append]
  have h1 : ((l.filter (fun t => t.date ≠ s.date)).map DailyStat.date).Nodup :=
    h.sublist ((l.filter_sublist).map DailyStat.date)
  have h2 : s.date ∉ (l.filter (fun t => t.date ≠ s.date)).map DailyStat.date := by
    intro hmem
    obtain ⟨t, htmem, hteq⟩ := List.mem_map.mp hmem
    have ht := List.mem_filter.mp htmem
    simp only [ne_eq, decide_eq_true_eq] at ht
    exact ht.2 hteq
  refine h1.append (List.nodup_singleton s.date) ?_
  intro x hxA hx1
  simp only [List.map_cons, List.map_nil, List.mem_singleton] at hx1
  subst hx1
  exact h2 hxA

/-- Every reachable daily-stat series has pairwise-distinct dates. -/
theorem reachable_dates_nodup {l : List DailyStat} (h : ReachableStats l) :
    (l.map DailyStat.date).Nodup := by
  induction h with
  | empty => simp
  | save s _ ih => exact saveStat_dates_nodup s ih

/-- Removing the entries of a date that occurs exactly once shortens the
series by exactly one. -/
theorem filter_ne_length (l : List DailyStat) (d : ℤ)
    (h : (l.map DailyStat.date).Nodup) (hm : d ∈ l.map DailyStat.date) :
    (l.filter (fun t => t.date ≠ d)).length + 1 = l.length := by
  induction l with
  | nil => cases hm
  | cons a l ih =>
    simp only [List.map_cons, List.nodup_cons] at h
    obtain ⟨hna, hnl⟩ := h
    by_cases had : a.date = d
    · have hrest : l.filter (fun t => t.date ≠ d) = l := by
        apply List.filter_eq_self.mpr
        intro t htl
        simp only [ne_eq, decide_eq_true_eq]
        intro hc
        apply hna
        rw [had, ← hc]
        exact List.mem_map_of_mem DailyStat.date htl
      rw [List.filter_cons_of_neg (by simp [had]), hrest]
      simp
    · have hmem : d ∈ List.map DailyStat.date l := by
        rcases List.mem_cons.mp hm with heq | hmem
        · exact absurd heq.symm had
        · exact hmem
      rw [List.filter_cons_of_pos (by simp [had])]
      have hih := ih hnl hmem
      simp only [List.length_cons]
      omega

/-- Claim C8: for a reachable daily-stat series, the delete-then-insert
save keeps at most one entry per date, leaves the series sorted by date
ascending, stores the new entry as the unique entry of its date, and
re-saving an already-recorded date leaves the length unchanged. -/
theorem saveStat_spec (l : List DailyStat) (s : DailyStat) (h : ReachableStats l) :
    ((saveStat l s).map DailyStat.date).Nodup ∧
    List.Sorted statLE (saveStat l s) ∧
    s ∈ saveStat l s ∧
    (∀ t ∈ saveStat l s, t.date = s.date → t = s) ∧
    (s.date ∈ l.map DailyStat.date → (saveStat l s).length = l.length) := by
  have hnd := reachable_dates_nodup h
  refine ⟨saveStat_dates_nodup s hnd, List.sorted_insertionSort statLE _, ?_, ?_, ?_⟩
  · exact (mem_saveStat l s s).mpr (Or.inr rfl)
  · intro t ht hdate
    rcases (mem_saveStat l s t).mp ht with ⟨_, hne⟩ | he
    · exact absurd hdate hne
    · exact he
  · intro hm
    have hlen : (saveStat l s).length
        = (l.filter (fun t => t.date ≠ s.date)).length + 1 := by
      have hl := (saveStat_perm l s).length_eq
      simpa using hl
    rw [hlen, filter_ne_length l s.date hnd hm]

/-- A stat whose date is `d` is the one `find?` returns, when dates are
distinct. -/
theorem find?_date_unique (stats : List DailyStat) (d : ℤ) (t : DailyStat)
    (ht : t ∈ stats) (hd : t.date = d) (hnd : (stats.map DailyStat.date).Nodup) :
    stats.find? (fun u => u.date = d) = some t := by
  induction stats with
  | nil => cases ht
  | cons a l ih =>
    simp only [List.map_cons, List.nodup_cons] at hnd
    obtain ⟨hna, hnl⟩ := hnd
    cases ht with
    | head =>
      exact List.find?_cons_of_pos l (by simp [hd])
    | tail _ htl =>
      have hne : ¬ a.date = d := by
        intro he
        exact hna (List.mem_map.mpr ⟨t, htl, hd.trans he.symm⟩)
      rw [List.find?_cons_of_neg l (by simp [hne])]
      exact ih htl hnl

/-- Witness for C8: re-saving date 1 into the reachable one-entry series
`saveStat [] stat1`. -/
theorem saveStat_spec_witness :
    ((saveStat (saveStat [] stat1) stat1b).map DailyStat.date).Nodup ∧
    List.Sorted statLE (saveStat (saveStat [] stat1) stat1b) ∧
    stat1b ∈ saveStat (saveStat [] stat1) stat1b ∧
    (∀ t ∈ saveStat (saveStat [] stat1) stat1b, t.date = stat1b.date → t = stat1b) ∧
    (stat1b.date ∈ (saveStat [] stat1).map DailyStat.date →
      (saveStat (saveStat [] stat1) stat1b).length = (saveStat [] stat1).length) :=
  saveStat_spec (saveStat [] stat1) stat1b (ReachableStats.save stat1 ReachableStats.empty)

/-- Claim C9 as amended: the saved `cpmChange` compares with the stat
recorded for the immediately preceding calendar date: it is null exactly
when no stat of date `d - 1` exists, and when one exists (dates being
distinct) it is the cpm difference to that stat. -/
theorem saveCpmChange_prior_day (stats : List DailyStat) (d : ℤ) (cpm : ℚ) :
    (saveCpmChange stats d cpm = none ↔ ∀ t ∈ stats, ¬ t.date = d - 1) ∧
    (∀ t ∈ stats, t.date = d - 1 → (stats.map DailyStat.date).Nodup →
      saveCpmChange stats d cpm = some (cpm - t.cpm)) := by
  constructor
  · unfold saveCpmChange
    cases hf : stats.find? (fun t => t.date = d - 1) with
    | none =>
      simp only [hf]
      constructor
      · intro _ t htm heq
        have := List.find?_eq_none.mp hf t htm
        simp [heq] at this
      · intro _
        trivial
    | some y =>
      simp only [hf]
      constructor
      · intro hx
        cases hx
      · intro hall
        exfalso
        have hy : y ∈ stats := List.mem_of_find?_eq_some hf
        have hp := List.find?_some hf
        simp only [decide_eq_true_eq] at hp
        exact hall y hy hp
  · intro t htm heq hnd
    unfold saveCpmChange
    rw [find?_date_unique stats (d - 1) t htm heq hnd]

/-- Witness for the amended C9: saving date 2 when date 1 is recorded. -/
theorem saveCpmChange_prior_day_witness :
    saveCpmChange [stat1] 2 10 = some (10 - stat1.cpm) :=
  (saveCpmChange_prior_day [stat1] 2 10).2 stat1 (List.mem_singleton.mpr rfl) rfl (by simp)

/-- Claim C9 counterexample: saving date 2 when only date 0 is recorded
yields a null `cpmChange` although a prior recorded day (date 0) exists:
the code consults only the exact previous calendar date, not the prior
recorded day. -/
theorem saveCpmChange_null_despite_prior :
    saveCpmChange [stat0] 2 10 = none ∧ stat0 ∈ [stat0] ∧ stat0.date < 2 :=
  ⟨rfl, List.mem_singleton.mpr rfl, by decide⟩

namespace UpdateCollab

/-- Assigning a key yields either an old binding of another key or the
new binding. -/
theorem mem_setKey {l : List (String × BVal)} {k : String} {v : BVal}
    {kv : String × BVal} (h : kv ∈ setKey l k v) : kv ∈ l ∨ kv = (k, v) := by
  unfold setKey at h
  rcases List.mem_append.mp h with hl | hr
  · exact Or.inl (List.mem_filter.mp hl).1
  · exact Or.inr (List.mem_singleton.mp hr)

/-- A key of an extended `$unset` list is an old key or the new one. -/
theorem mem_unsetKey {l : List String} {k x : String} (h : x ∈ unsetKey l k) :
    x ∈ l ∨ x = k := by
  unfold unsetKey at h
  split at h
  · exact Or.inl h
  · rcases List.mem_append.mp h with hl | hr
    · exact Or.inl hl
    · exact Or.inr (List.mem_singleton.mp hr)

/-- Extending the `$unset` list keeps its keys. -/
theorem unsetKey_mono {l : List String} {k x : String} (h : x ∈ l) :
    x ∈ unsetKey l k := by
  unfold unsetKey
  split
  · exact h
  · exact List.mem_append.mpr (Or.inl h)

/-- The key itself is in the extended `$unset` list. -/
theorem unsetKey_self (l : List String) (k : String) : k ∈ unsetKey l k := by
  unfold unsetKey
  split
  · assumption
  · exact List.mem_append.mpr (Or.inr (List.mem_singleton.mpr rfl))

/-- A loop iteration keeps every `$unset` key. -/
theorem loopStep_unsets_mono {body : KVList} {p : Payload} {f x : String}
    (h : x ∈ p.unsets) : x ∈ (loopStep body p f).unsets := by
  unfold loopStep
  cases lookup body f with
  | none => exact h
  | some v =>
    by_cases he : isEmptyVal v
    · simp only [he, if_true]
      exact unsetKey_mono h
    · simp only [he, if_false]
      exact h

/-- The whole loop keeps every `$unset` key. -/
theorem foldl_unsets_mono (body : KVList) :
    ∀ (L : List String) (p : Payload) (x : String), x ∈ p.unsets →
      x ∈ (L.foldl (loopStep body) p).unsets := by
  intro L
  induction L with
  | nil => intro p x h; exact h
  | cons f L ih =>
    intro p x h
    exact ih (loopStep body p f) x (loopStep_unsets_mono h)

/-- A field of the whitelist that the body maps to an empty value ends up
in the loop's `$unset` list. -/
theorem loop_unsets_of_empty (body : KVList) (f : String) (v : BVal)
    (hb : lookup body f = some v) (he : isEmptyVal v = true) :
    ∀ (L : List String) (p : Payload), f ∈ L →
      f ∈ (L.foldl (loopStep body) p).unsets := by
  intro L
  induction L with
  | nil => intro p h; cases h
  | cons g L ih =>
    intro p hf
    rcases List.mem_cons.mp hf with heq | hmem
    · subst heq
      rw [List.foldl_cons]
      apply foldl_unsets_mono
      unfold loopStep
      rw [hb]
      simp only [he, if_true]
      exact unsetKey_self p.unsets f
    · exact ih (loopStep body p g) hmem

/-- The rebate step keeps every `$unset` key. -/
theorem rebateStep_unsets_mono {body : KVList} {now : ℤ} {p : Payload}
    {x : String} (h : x ∈ p.unsets) : x ∈ (rebateStep body now p).unsets := by
  unfold rebateStep
  split
  · split
    · exact unsetKey_mono h
    · exact h
  · exact h

/-- The publish step does not touch `$unset`. -/
theorem publishStep_unsets (body : KVList) (p : Payload) :
    (publishStep body p).unsets = p.unsets := by
  unfold publishStep
  split
  · split <;> rfl
  · rfl

/-- The timestamp step does not touch `$unset`. -/
theorem timestampStep_unsets (now : ℤ) (p : Payload) :
    (timestampStep now p).unsets = p.unsets := by
  unfold timestampStep
  split <;> rfl

/-- Keys of the loop's payload: every `$set` key and `$unset` key comes
from the processed field list or from the initial payload. -/
theorem loop_keys (body : KVList) (P : String → Prop) :
    ∀ (L : List String) (p : Payload), (∀ f ∈ L, P f) →
      (∀ kv ∈ p.sets, P kv.1) → (∀ k ∈ p.unsets, P k) →
      (∀ kv ∈ (L.foldl (loopStep body) p).sets, P kv.1) ∧
      (∀ k ∈ (L.foldl (loopStep body) p).unsets, P k) := by
  intro L
  induction L with
  | nil => intro p _ hs hu; exact ⟨hs, hu⟩
  | cons f L ih =>
    intro p hL hs hu
    apply ih (loopStep body p f) (fun g hg => hL g (List.mem_cons_of_mem f hg))
    · intro kv hkv
      unfold loopStep at hkv
      cases hlk : lookup body f with
      | none => rw [hlk] at hkv; exact hs kv hkv
      | some v =>
        rw [hlk] at hkv
        by_cases he : isEmptyVal v
        · simp only [he, if_true] at hkv
          exact hs kv hkv
        · simp only [he, if_false] at hkv
          rcases mem_setKey hkv with hold | hnew
          · exact hs kv hold
          · rw [hnew]
            exact hL f (List.mem_cons_self f L)
    · intro k hk
      unfold loopStep at hk
      cases hlk : lookup body f with
      | none => rw [hlk] at hk; exact hu k hk
      | some v =>
        rw [hlk] at hk
        by_cases he : isEmptyVal v
        · simp only [he, if_true] at hk
          rcases mem_unsetKey hk with hold | hnew
          · exact hu k hold
          · rw [hnew]
            exact hL f (List.mem_cons_self f L)
        · simp only [he, if_false] at hk
          exact hu k hk

/-- Every key of an assembled update is whitelisted, except the
`updatedAt` stamp in `$set`. -/
theorem buildUpdate_keys (body : KVList) (now : ℤ) (p : Payload)
    (hb : buildUpdate body now = some p) :
    (∀ kv ∈ p.sets, kv.1 ∈ ALLOWED_UPDATE_FIELDS ∨ kv.1 = "updatedAt") ∧
    (∀ k ∈ p.unsets, k ∈ ALLOWED_UPDATE_FIELDS) := by
  unfold buildUpdate at hb
  by_cases hv : hasValidFields body = true
  case neg => rw [if_neg hv] at hb; cases hb
  rw [if_pos hv] at hb
  injection hb with hb
  have hdr : ("discrepancyReasonUpdatedAt" : String) ∈ ALLOWED_UPDATE_FIELDS := by
    simp [ALLOWED_UPDATE_FIELDS]
  have hst : ("status" : String) ∈ ALLOWED_UPDATE_FIELDS := by
    simp [ALLOWED_UPDATE_FIELDS]
  have h0 := loop_keys body (fun k => k ∈ ALLOWED_UPDATE_FIELDS) ALLOWED_UPDATE_FIELDS
    ⟨[], []⟩ (fun f hf => hf) (by intro kv h; cases h) (by intro k h; cases h)
  have h1 : (∀ kv ∈ (rebateStep body now (fieldLoop body)).sets,
        kv.1 ∈ ALLOWED_UPDATE_FIELDS) ∧
      (∀ k ∈ (rebateStep body now (fieldLoop body)).unsets,
        k ∈ ALLOWED_UPDATE_FIELDS) := by
    unfold rebateStep
    split
    · split
      · refine ⟨h0.1, ?_⟩
        intro k hk
        rcases mem_unsetKey hk with hold | hnew
        · exact h0.2 k hold
        · rw [hnew]; exact hdr
      · refine ⟨?_, h0.2⟩
        intro kv hkv
        rcases mem_setKey hkv with hold | hnew
        · exact h0.1 kv hold
        · rw [hnew]; exact hdr
    · exact h0
  have h2 : (∀ kv ∈ (publishStep body (rebateStep body now (fieldLoop body))).sets,
        kv.1 ∈ ALLOWED_UPDATE_FIELDS) ∧
      (∀ k ∈ (publishStep body (rebateStep body now (fieldLoop body))).unsets,
        k ∈ ALLOWED_UPDATE_FIELDS) := by
    unfold publishStep
    split
    · split
      · exact h1
      · refine ⟨?_, h1.2⟩
        intro kv hkv
        rcases mem_setKey hkv with hold | hnew
        · exact h1.1 kv hold
        · rw [hnew]; exact hst
    · exact h1
  rw [← hb]
  unfold timestampStep
  split
  · exact ⟨fun kv hkv => Or.inl (h2.1 kv hkv), h2.2⟩
  · constructor
    · intro kv hkv
      rcases mem_setKey hkv with hold | hnew
      · exact Or.inl (h2.1 kv hold)
      · rw [hnew]; exact Or.inr rfl
    · exact h2.2

end UpdateCollab

namespace UpdateCollab

/-- Assigning one key leaves the lookup of any other key unchanged. -/
theorem lookup_setKey_ne (l : List (String × BVal)) (k : String) (v : BVal)
    (f : String) (h : ¬ f = k) : lookup (setKey l k v) f = lookup l f := by
  unfold lookup setKey
  have hkf : ¬ ((k, v).1 = f) := fun hc => h hc.symm
  induction l with
  | nil =>
    simp only [List.filter_nil, List.nil_append]
    rw [List.find?_cons_of_neg _ (by simpa using hkf)]
  | cons a l ih =>
    by_cases hak : a.1 = k
    · have haf : ¬ (a.1 = f) := by rw [hak]; exact fun hc => h hc.symm
      rw [List.filter_cons_of_neg (by simp [hak])]
      rw [List.find?_cons_of_neg _ (by simpa using haf)]
      exact ih
    · rw [List.filter_cons_of_pos (by simp [hak])]
      by_cases haf : a.1 = f
      · rw [List.cons_append, List.find?_cons_of_pos _ (by simp [haf]),
          List.find?_cons_of_pos _ (by simp [haf])]
      · rw [List.cons_append, List.find?_cons_of_neg _ (by simp [haf]),
          List.find?_cons_of_neg _ (by simp [haf])]
        exact ih

/-- Writing the `$set` keys leaves the lookup of a key none of them names
unchanged. -/
theorem lookup_applySets_ne (sets : List (String × BVal)) (r : KVList)
    (f : String) (h : ∀ kv ∈ sets, ¬ f = kv.1) :
    lookup (sets.foldl (fun acc kv => setKey acc kv.1 kv.2) r) f = lookup r f := by
  induction sets generalizing r with
  | nil => rfl
  | cons kv sets ih =>
    rw [List.foldl_cons]
    rw [ih (setKey r kv.1 kv.2) (fun x hx => h x (List.mem_cons_of_mem kv hx))]
    exact lookup_setKey_ne r kv.1 kv.2 f (h kv (List.mem_cons_self kv sets))

/-- Removing the `$unset` keys leaves the lookup of a key outside them
unchanged. -/
theorem lookup_unsets_not_mem (r : KVList) (us : List String) (f : String)
    (hf : f ∉ us) :
    lookup (r.filter (fun kv => kv.1 ∉ us)) f = lookup r f := by
  unfold lookup
  induction r with
  | nil => rfl
  | cons a r ih =>
    by_cases ha : a.1 ∈ us
    · have haf : ¬ (a.1 = f) := fun hc => hf (hc ▸ ha)
      rw [List.filter_cons_of_neg (by simp [ha])]
      rw [List.find?_cons_of_neg _ (by simpa using haf)]
      exact ih
    · rw [List.filter_cons_of_pos (by simp [ha])]
      by_cases haf : a.1 = f
      · rw [List.find?_cons_of_pos _ (by simp [haf]),
          List.find?_cons_of_pos _ (by simp [haf])]
      · rw [List.find?_cons_of_neg _ (by simp [haf]),
          List.find?_cons_of_neg _ (by simp [haf])]
        exact ih

/-- Removing the `$unset` keys erases every key among them. -/
theorem lookup_unsets_mem (r : KVList) (us : List String) (f : String)
    (hf : f ∈ us) :
    lookup (r.filter (fun kv => kv.1 ∉ us)) f = none := by
  unfold lookup
  rw [List.find?_eq_none.mpr ?_]
  · rfl
  · intro x hx
    have hxm := List.mem_filter.mp hx
    simp only [decide_eq_true_eq] at hxm ⊢
    intro hc
    exact hxm.2 (hc ▸ hf)

end UpdateCollab

namespace UpdateCollab

/-- Unfolding of the handler once the update is assembled. -/
theorem handlerUpdate_of_some {body r : KVList} {now : ℤ} {p : Payload}
    (hb : buildUpdate body now = some p) :
    handlerUpdate body r now =
      match applyUpdate r p with
      | none => r
      | some r2 => r2 := by
  unfold handlerUpdate
  rw [hb]

end UpdateCollab

/-- Claim C10 as amended: (frame) a record field outside the whitelist
and other than `updatedAt` is never changed by the handler, whatever the
body contains; (removal) an empty value (`null`/`""`/empty array) sent
for a whitelisted field removes that field, provided the assembled
update does not both set and unset a key (otherwise — e.g. `status: ""`
together with a truthy `publishDate`, which auto-sets `status` — the
store rejects the whole update and the record keeps the field). -/
theorem updateCollaborator_whitelist :
    (∀ (body r : UpdateCollab.KVList) (now : ℤ) (f : String),
      f ∉ UpdateCollab.ALLOWED_UPDATE_FIELDS → ¬ f = "updatedAt" →
      UpdateCollab.lookup (UpdateCollab.handlerUpdate body r now) f
        = UpdateCollab.lookup r f) ∧
    (∀ (body r : UpdateCollab.KVList) (now : ℤ) (f : String) (v : UpdateCollab.BVal),
      f ∈ UpdateCollab.ALLOWED_UPDATE_FIELDS →
      UpdateCollab.lookup body f = some v → UpdateCollab.isEmptyVal v = true →
      (∀ p, UpdateCollab.buildUpdate body now = some p →
        p.sets.all (fun kv => ¬ kv.1 ∈ p.unsets) = true) →
      UpdateCollab.lookup (UpdateCollab.handlerUpdate body r now) f = none) := by
  constructor
  · intro body r now f hfA hfU
    cases hb : UpdateCollab.buildUpdate body now with
    | none =>
      unfold UpdateCollab.handlerUpdate
      rw [hb]
    | some p =>
      have hkeys := UpdateCollab.buildUpdate_keys body now p hb
      have hfu : f ∉ p.unsets := fun hm => hfA (hkeys.2 f hm)
      have hsets : ∀ kv ∈ p.sets, ¬ f = kv.1 := by
        intro kv hkv hc2
        rcases hkeys.1 kv hkv with h1 | h2
        · exact hfA (by rw [hc2]; exact h1)
        · exact hfU (hc2.trans h2)
      rw [UpdateCollab.handlerUpdate_of_some hb]
      by_cases hc : p.sets.any (fun kv => kv.1 ∈ p.unsets) = true
      · have happ : UpdateCollab.applyUpdate r p = none := by
          unfold UpdateCollab.applyUpdate
          rw [if_pos hc]
        rw [happ]
      · have happ : UpdateCollab.applyUpdate r p =
            some ((p.sets.foldl (fun acc kv => UpdateCollab.setKey acc kv.1 kv.2) r).filter
              (fun kv => kv.1 ∉ p.unsets)) := by
          unfold UpdateCollab.applyUpdate
          rw [if_neg hc]
        rw [happ]
        show UpdateCollab.lookup
            ((p.sets.foldl (fun acc kv => UpdateCollab.setKey acc kv.1 kv.2) r).filter
              (fun kv => kv.1 ∉ p.unsets)) f = UpdateCollab.lookup r f
        rw [UpdateCollab.lookup_unsets_not_mem _ _ _ hfu]
        exact UpdateCollab.lookup_applySets_ne _ _ _ hsets
  · intro body r now f v hfA hbody hempty hnc
    have hvalid : UpdateCollab.hasValidFields body = true := by
      apply List.any_eq_true.mpr
      exact ⟨f, hfA, by simp [hbody]⟩
    have hb : UpdateCollab.buildUpdate body now
        = some (UpdateCollab.timestampStep now (UpdateCollab.publishStep body
            (UpdateCollab.rebateStep body now (UpdateCollab.fieldLoop body)))) := by
      unfold UpdateCollab.buildUpdate
      rw [if_pos hvalid]
    have hu0 : f ∈ (UpdateCollab.fieldLoop body).unsets :=
      UpdateCollab.loop_unsets_of_empty body f v hbody hempty
        UpdateCollab.ALLOWED_UPDATE_FIELDS ⟨[], []⟩ hfA
    have hu1 : f ∈ (UpdateCollab.rebateStep body now (UpdateCollab.fieldLoop body)).unsets :=
      UpdateCollab.rebateStep_unsets_mono hu0
    have hu2 : f ∈ (UpdateCollab.publishStep body
        (UpdateCollab.rebateStep body now (UpdateCollab.fieldLoop body))).unsets := by
      rw [UpdateCollab.publishStep_unsets]
      exact hu1
    have hu3 : f ∈ (UpdateCollab.timestampStep now (UpdateCollab.publishStep body
        (UpdateCollab.rebateStep body now (UpdateCollab.fieldLoop body)))).unsets := by
      rw [UpdateCollab.timestampStep_unsets]
      exact hu2
    have hcf := hnc _ hb
    rw [UpdateCollab.handlerUpdate_of_some hb]
    have hnoc : ¬ ((UpdateCollab.timestampStep now (UpdateCollab.publishStep body
        (UpdateCollab.rebateStep body now (UpdateCollab.fieldLoop body)))).sets.any
          (fun kv => kv.1 ∈ (UpdateCollab.timestampStep now (UpdateCollab.publishStep body
            (UpdateCollab.rebateStep body now (UpdateCollab.fieldLoop body)))).unsets)
          = true) := by
      intro hx
      obtain ⟨kv, hkv, hdec⟩ := List.any_eq_true.mp hx
      have hall := List.all_eq_true.mp hcf kv hkv
      simp only [decide_eq_true_eq] at hall hdec
      exact hall hdec
    have happ : UpdateCollab.applyUpdate r (UpdateCollab.timestampStep now
        (UpdateCollab.publishStep body (UpdateCollab.rebateStep body now
          (UpdateCollab.fieldLoop body)))) =
        some (((UpdateCollab.timestampStep now (UpdateCollab.publishStep body
            (UpdateCollab.rebateStep body now (UpdateCollab.fieldLoop body)))).sets.foldl
              (fun acc kv => UpdateCollab.setKey acc kv.1 kv.2) r).filter
          (fun kv => kv.1 ∉ (UpdateCollab.timestampStep now (UpdateCollab.publishStep body
            (UpdateCollab.rebateStep body now (UpdateCollab.fieldLoop body)))).unsets)) := by
      unfold UpdateCollab.applyUpdate
      rw [if_neg hnoc]
    rw [happ]
    exact UpdateCollab.lookup_unsets_mem _ _ _ hu3

/-- Claim C10 counterexample: the body sends the empty string for the
whitelisted field `status` (together with a truthy `publishDate`), yet
after the request the record still holds its old `status`: the
auto-publish rule put `status` into `$set` while the empty value put it
into `$unset`, and the store rejects the conflicting update. -/
theorem emptyStatus_not_removed :
    UpdateCollab.lookup bodyConflict "status" = some (UpdateCollab.BVal.str "") ∧
    UpdateCollab.isEmptyVal (UpdateCollab.BVal.str "") = true ∧
    UpdateCollab.lookup (UpdateCollab.handlerUpdate bodyConflict recStatus 0) "status"
      = some (UpdateCollab.BVal.str "客户已定档") := by
  exact ⟨rfl, rfl, rfl⟩

/-- Witness for the amended C10: the non-whitelisted `foo` survives the
update untouched, and the `actualRebate: null` removal goes through
(this body produces no set/unset conflict). -/
theorem updateCollaborator_whitelist_witness :
    UpdateCollab.lookup (UpdateCollab.handlerUpdate bodyClean recBefore 5) "foo"
      = UpdateCollab.lookup recBefore "foo" ∧
    UpdateCollab.lookup (UpdateCollab.handlerUpdate bodyClean recBefore 5) "actualRebate"
      = none := by
  constructor
  · exact updateCollaborator_whitelist.1 bodyClean recBefore 5 "foo"
      (by decide) (by decide)
  · refine updateCollaborator_whitelist.2 bodyClean recBefore 5 "actualRebate"
      UpdateCollab.BVal.null (by decide) rfl rfl ?_
    intro p hp
    rw [show UpdateCollab.buildUpdate bodyClean 5
        = some ((UpdateCollab.buildUpdate bodyClean 5).getD ⟨[], []⟩) from rfl] at hp
    injection hp with hp
    rw [← hp]
    rfl
